import Mathlib

/-!
Verification of the Textract-to-HOCR pipeline (hocrOuput.py).

The source is a single Python script that normalizes an AWS Textract
response (a flat list of blocks) into a page → line → word tree and
renders it as HOCR markup, plus a plain-text transcript.

Shallow embedding conventions:
* a Textract block (a Python dict) becomes the structure `Block`, with
  `Option` fields for the keys the source reads through `.get` or whose
  absence raises `KeyError`;
* Python dicts used as ordered key → value maps become association
  lists with insertion-order semantics (`dictInsert` keeps the position
  of an existing key, as CPython dicts do);
* fallible Python code (KeyError, IndexError) becomes `Except PyError`;
* Python floats become `ℚ`; `int(x)` on a float truncates toward zero,
  embedded as `pyInt`.
-/

/-- Errors the embedded Python code can raise: `KeyError` on a missing
dict key (carrying the key name) and `IndexError` on an out-of-range
list subscript. -/
inductive PyError where
  | keyError : String → PyError
  | indexError : PyError
deriving DecidableEq

/-- A point of a Geometry Polygon, dict with keys X and Y (floats). -/
structure Point where
  x : ℚ
  y : ℚ
deriving DecidableEq

/-- A fractional bounding box, dict with keys Left, Top, Width, Height. -/
structure BoundingBox where
  left : ℚ
  top : ℚ
  width : ℚ
  height : ℚ
deriving DecidableEq

/-- The Geometry dict of a block: BoundingBox and Polygon. -/
structure Geometry where
  boundingBox : BoundingBox
  polygon : List Point
deriving DecidableEq

/-- One entry of the Relationships list of a block; its Ids key is read
with a default (`.get("Ids", [])`), hence `Option`. -/
structure RelGroup where
  ids : Option (List String)
deriving DecidableEq

/-- One Textract block (a recognition record).  BlockType and Id are
accessed unconditionally everywhere relevant and are modelled as total;
the remaining keys are read either through `.get` with a default or
unconditionally (where absence would raise `KeyError`), so they are
`Option` fields. -/
structure Block where
  blockType : String
  id : String
  confidence : Option ℚ
  text : Option String
  geometry : Option Geometry
  page : Option ℤ
  textType : Option String
  relationships : Option (List RelGroup)
deriving DecidableEq

/-- The Textract result JSON: its Blocks array. -/
structure TextractResult where
  blocks : List Block
deriving DecidableEq

/-- Access of a required dict key: `some` passes the value through,
`none` raises `KeyError` with the key name. -/
def getKey {α : Type} (o : Option α) (name : String) : Except PyError α :=
  match o with
  | some v => Except.ok v
  | none => Except.error (PyError.keyError name)

/-- Lookup in an insertion-ordered dict (association list). -/
def dictFind {κ α : Type} [BEq κ] (k : κ) : List (κ × α) → Option α
  | [] => none
  | (k₁, v) :: rest => if k₁ == k then some v else dictFind k rest

/-- Assignment `d[k] = v` on an insertion-ordered dict: an existing key
keeps its position and gets the new value; a new key is appended. -/
def dictInsert {κ α : Type} [BEq κ] (k : κ) (v : α) : List (κ × α) → List (κ × α)
  | [] => [(k, v)]
  | (k₁, v₁) :: rest =>
      if k₁ == k then (k₁, v) :: rest else (k₁, v₁) :: dictInsert k v rest

/-- Embeds get_block_by_id: linear scan of result["Blocks"] for the first
block whose Id matches; None when no block matches. -/
def get_block_by_id (result : TextractResult) (block_id : String) : Option Block :=
  result.blocks.find? (fun block => block.id == block_id)

/-- A Word node of the Normalized Tree: the dict stored in the Words
mapping of a Line node by parse_block. -/
structure WordData where
  blockType : String
  confidence : ℚ
  text : String
  textType : Option String
  boundingBox : BoundingBox
  polygon : List Point
deriving DecidableEq

/-- A Line node of the Normalized Tree: the dict returned by
parse_block (block_data), with Words an insertion-ordered mapping from
word identifier to Word node. -/
structure LineData where
  blockType : String
  confidence : ℚ
  text : String
  boundingBox : BoundingBox
  polygon : List Point
  words : List (String × WordData)
deriving DecidableEq

/-- The expression `block.get("Relationships", [{}])[0].get("Ids", [])`
from parse_block: an absent Relationships key yields the default
`[{}]`, whose first element has no Ids key, so the result is `[]`; a
present but empty Relationships list makes the `[0]` subscript raise
`IndexError`; otherwise the Ids of the first group are read with default
`[]`. -/
def first_group_ids (block : Block) : Except PyError (List String) :=
  match block.relationships with
  | none => Except.ok []
  | some [] => Except.error PyError.indexError
  | some (g :: _) => Except.ok (g.ids.getD [])

/-- The body of the word loop in parse_block: resolve one referenced
identifier via get_block_by_id; a failed lookup is skipped silently; a
successful one stores a Word node under that identifier. -/
def add_word (result : TextractResult) (ws : List (String × WordData))
    (word_id : String) : Except PyError (List (String × WordData)) :=
  match get_block_by_id result word_id with
  | none => Except.ok ws
  | some word_block => do
      let wconf ← getKey word_block.confidence "Confidence"
      let wtext ← getKey word_block.text "Text"
      let wgeom ← getKey word_block.geometry "Geometry"
      Except.ok (dictInsert word_id
        { blockType := word_block.blockType
          confidence := wconf
          text := wtext
          textType := word_block.textType
          boundingBox := wgeom.boundingBox
          polygon := wgeom.polygon.map (fun point => Point.mk point.x point.y) } ws)

/-- Embeds parse_block: build a Line node from a block, reading Confidence,
Text and Geometry unconditionally, then resolving the identifiers of
the first relationship group into Word nodes. -/
def parse_block (block : Block) (result : TextractResult) :
    Except PyError LineData := do
  let conf ← getKey block.confidence "Confidence"
  let txt ← getKey block.text "Text"
  let geom ← getKey block.geometry "Geometry"
  let ids ← first_group_ids block
  let ws ← ids.foldlM (add_word result) []
  Except.ok
    { blockType := block.blockType
      confidence := conf
      text := txt
      boundingBox := geom.boundingBox
      polygon := geom.polygon.map (fun point => Point.mk point.x point.y)
      words := ws }

/-- Embeds the expression block.get("Page", 1): the page number of a block, defaulting to
1 when the Page key is absent. -/
def pageOf (block : Block) : ℤ :=
  block.page.getD 1

/-- The Normalized Tree: an insertion-ordered mapping from page number
to an insertion-ordered mapping from line identifier to Line node. -/
abbrev ResultData : Type :=
  List (ℤ × List (String × LineData))

/-- One iteration of the loop in parse_results: a PAGE block assigns an
empty mapping to its page number unconditionally; a LINE block first
creates its page entry if missing, then stores its parsed Line node
under its Id in that page entry; any other block type is ignored. -/
def parse_step (result : TextractResult) (rd : ResultData) (block : Block) :
    Except PyError ResultData :=
  if block.blockType == "PAGE" then
    Except.ok (dictInsert (pageOf block) [] rd)
  else if block.blockType == "LINE" then do
    let ld ← parse_block block result
    Except.ok (dictInsert (pageOf block)
      (dictInsert block.id ld ((dictFind (pageOf block) rd).getD [])) rd)
  else
    Except.ok rd

/-- Embeds parse_results: fold parse_step over result["Blocks"] in input
order, starting from the empty tree. -/
def parse_results (result : TextractResult) : Except PyError ResultData :=
  result.blocks.foldlM (parse_step result) []

/-- Python `int()` applied to a number: truncation toward zero. -/
def pyInt (q : ℚ) : ℤ :=
  if q < 0 then -⌊-q⌋ else ⌊q⌋

/-- The four absolute coordinates computed inline in the title
f-strings of render_html: `int(Left*W)`, `int(Top*H)`,
`int(Left*W + Width*W)`, `int(Top*H + Height*H)`. -/
def render_coords (bb : BoundingBox) (pic_w pic_h : ℤ) : ℤ × ℤ × ℤ × ℤ :=
  (pyInt (bb.left * pic_w), pyInt (bb.top * pic_h),
   pyInt (bb.left * pic_w + bb.width * pic_w),
   pyInt (bb.top * pic_h + bb.height * pic_h))

/-- The title attribute of an ocr_line div in render_html, built from
the f-string of the line tag. -/
def line_title (bb : BoundingBox) (conf : ℚ) (pic_w pic_h : ℤ) : String :=
  "bbox " ++ toString (pyInt (bb.left * pic_w)) ++ " "
    ++ toString (pyInt (bb.top * pic_h)) ++ " "
    ++ toString (pyInt (bb.left * pic_w + bb.width * pic_w)) ++ " "
    ++ toString (pyInt (bb.top * pic_h + bb.height * pic_h))
    ++ "; x_wconf " ++ toString (pyInt conf)

/-- The title attribute of an ocrx_word span in render_html, built from
the f-string of the word tag. -/
def word_title (bb : BoundingBox) (conf : ℚ) (pic_w pic_h : ℤ) : String :=
  "bbox " ++ toString (pyInt (bb.left * pic_w)) ++ " "
    ++ toString (pyInt (bb.top * pic_h)) ++ " "
    ++ toString (pyInt (bb.left * pic_w + bb.width * pic_w)) ++ " "
    ++ toString (pyInt (bb.top * pic_h + bb.height * pic_h))
    ++ "; x_wconf " ++ toString (pyInt conf)

/-- An ocrx_word span rendered by render_html: title attribute and text
content (the recognized text plus a trailing space). -/
structure WordElem where
  title : String
  content : String
deriving DecidableEq

/-- An ocr_line div rendered by render_html: title attribute and the
contained word spans in iteration order. -/
structure LineElem where
  title : String
  wordElems : List WordElem
deriving DecidableEq

/-- An ocr_page div rendered by render_html: its id attribute
(`page_<number>`) and the contained line divs in iteration order. -/
structure PageElem where
  pageId : String
  lineElems : List LineElem
deriving DecidableEq

/-- Embeds render_html: serialize the Normalized Tree, one ocr_page div per
page, one ocr_line div per line, one ocrx_word span per word, in tree
iteration order, abstracting the markup builder to element values. -/
def render_html (result_data : ResultData) (pic_w pic_h : ℤ) : List PageElem :=
  result_data.map (fun page =>
    { pageId := "page_" ++ toString page.1
      lineElems := page.2.map (fun entry =>
        { title := line_title entry.2.boundingBox entry.2.confidence pic_w pic_h
          wordElems := entry.2.words.map (fun wentry =>
            { title := word_title wentry.2.boundingBox wentry.2.confidence pic_w pic_h
              content := wentry.2.text ++ " " }) }) })

/-- Collects the Text of every LINE block, in list order, exactly as
the generator inside get_transcript does: non-LINE blocks are skipped
and a LINE block with no Text key raises KeyError. -/
def line_texts : List Block → Except PyError (List String)
  | [] => Except.ok []
  | block :: rest =>
      if block.blockType == "LINE" then do
        let t ← getKey block.text "Text"
        let ts ← line_texts rest
        Except.ok (t :: ts)
      else line_texts rest

/-- Embeds get_transcript: the Text of every LINE block of the raw
response, in list order, joined by a single newline between
consecutive entries, with no trailing newline. -/
def get_transcript (result : TextractResult) : Except PyError String :=
  (line_texts result.blocks).map (String.intercalate "\n")

/-- Modelled from the spec wording of the coordinate-conversion
formula, for comparison with render_coords: the floor-based absolute
box (left, top, right, bottom). -/
def spec_floor_coords (bb : BoundingBox) (pic_w pic_h : ℤ) : ℤ × ℤ × ℤ × ℤ :=
  (⌊bb.left * pic_w⌋, ⌊bb.top * pic_h⌋,
   ⌊bb.left * pic_w + bb.width * pic_w⌋,
   ⌊bb.top * pic_h + bb.height * pic_h⌋)

/-- Assembles a title attribute string from four absolute coordinates
and a confidence, in the shared format of the two title f-strings of
render_html. -/
def title_string (c : ℤ × ℤ × ℤ × ℤ) (conf : ℚ) : String :=
  "bbox " ++ toString c.1 ++ " " ++ toString c.2.1 ++ " "
    ++ toString c.2.2.1 ++ " " ++ toString c.2.2.2
    ++ "; x_wconf " ++ toString (pyInt conf)

/-- A LINE block on page 1 with no Relationships key, used as a
concrete input. -/
def exLine : Block :=
  { blockType := "LINE"
    id := "L1"
    confidence := some 98
    text := some "Hello"
    geometry := some ⟨⟨1/10, 2/10, 3/10, 5/100⟩, []⟩
    page := some 1
    textType := none
    relationships := none }

/-- A PAGE block on page 1, used as a concrete input. -/
def exPage : Block :=
  { blockType := "PAGE"
    id := "P1"
    confidence := none
    text := none
    geometry := none
    page := some 1
    textType := none
    relationships := none }

/-- A second LINE block, with Text World, used as a concrete input. -/
def exLine2 : Block :=
  { exLine with id := "L2", text := some "World" }

/-- A LINE block whose single relationship group references the
identifier of another LINE block, used as a concrete input. -/
def exLineRefLine : Block :=
  { exLine with relationships := some [RelGroup.mk (some ["L2"])] }

/-- A concrete result holding a LINE block that references another
LINE block as its child. -/
def exRefResult : TextractResult :=
  ⟨[exLineRefLine, exLine2]⟩

/-- A WORD block with identifier W1, used as a concrete input. -/
def exWord1 : Block :=
  { blockType := "WORD"
    id := "W1"
    confidence := some 99
    text := some "Hi"
    geometry := some ⟨⟨1/10, 2/10, 3/10, 5/100⟩, []⟩
    page := some 1
    textType := some "PRINTED"
    relationships := none }

/-- A WORD block with identifier W2, used as a concrete input. -/
def exWord2 : Block :=
  { exWord1 with id := "W2", text := some "there" }

/-- A LINE block referencing W1, a dangling identifier W9, and W2, in
that order, in its single relationship group. -/
def exLineDangling : Block :=
  { exLine with relationships := some [RelGroup.mk (some ["W1", "W9", "W2"])] }

/-- A concrete result with one LINE whose references include the
dangling identifier W9. -/
def exDanglingResult : TextractResult :=
  ⟨[exLineDangling, exWord1, exWord2]⟩

/-- A LINE block with two relationship groups: the first references
W1, the second references W2 (which is present in the Block Index). -/
def exLineTwoGroups : Block :=
  { exLine with
      relationships := some [RelGroup.mk (some ["W1"]), RelGroup.mk (some ["W2"])] }

/-- A concrete result with one LINE carrying two relationship groups
whose second group would resolve if it were consulted. -/
def exTwoGroupsResult : TextractResult :=
  ⟨[exLineTwoGroups, exWord1, exWord2]⟩

/-- A LINE block with a present but empty Relationships list. -/
def exLineEmptyRel : Block :=
  { exLine with relationships := some [] }

/-- A PAGE block with no Page key, used as a concrete input. -/
def exPageNoNumber : Block :=
  { exPage with page := none }

/-- A LINE block with no Page key, used as a concrete input. -/
def exLineNoNumber : Block :=
  { exLine with page := none }

/-- The Line node that parse_block produces for exLine (no
relationship group, hence no Word nodes). -/
def exLineParsed : LineData :=
  { blockType := "LINE"
    confidence := 98
    text := "Hello"
    boundingBox := ⟨1/10, 2/10, 3/10, 5/100⟩
    polygon := []
    words := [] }


/-- A concrete raw response with LINE blocks Hello and World in that
order, and a PAGE block between them. -/
def exTranscriptResult : TextractResult :=
  ⟨[exLine, exPage, exLine2]⟩

/-- The Word node built for the reference L2 in exRefResult. -/
def exRefWord : WordData :=
  { blockType := "LINE"
    confidence := 98
    text := "World"
    textType := none
    boundingBox := ⟨1/10, 2/10, 3/10, 5/100⟩
    polygon := [] }

/-- The Line node parse_block produces for exLineRefLine over
exRefResult. -/
def exRefParsed : LineData :=
  { blockType := "LINE"
    confidence := 98
    text := "Hello"
    boundingBox := ⟨1/10, 2/10, 3/10, 5/100⟩
    polygon := []
    words := [("L2", exRefWord)] }

/-- The bounding box of the round-trip example of the spec. -/
def exBox : BoundingBox :=
  ⟨1/10, 2/10, 3/10, 5/100⟩

/-- A bounding box with a small negative Left fraction, on which
truncation toward zero and floor disagree. -/
def exBoxNeg : BoundingBox :=
  ⟨-1/2000, 0, 0, 0⟩

section Helpers

variable {κ α : Type} [BEq κ] [LawfulBEq κ]

/-- Lookup after assignment at the same key yields the new value. -/
theorem dictFind_dictInsert_self (k : κ) (v : α) (d : List (κ × α)) :
    dictFind k (dictInsert k v d) = some v := by
  induction d with
  | nil => simp [dictFind, dictInsert]
  | cons p rest ih =>
      obtain ⟨k₁, v₁⟩ := p
      by_cases h : k₁ = k
      · simp [dictFind, dictInsert, h]
      · simp [dictFind, dictInsert, h, ih]

/-- Lookup after assignment at a different key is unchanged. -/
theorem dictFind_dictInsert_ne (k₁ k : κ) (v : α) (d : List (κ × α))
    (h : k₁ ≠ k) : dictFind k (dictInsert k₁ v d) = dictFind k d := by
  induction d with
  | nil => simp [dictFind, dictInsert, h]
  | cons p rest ih =>
      obtain ⟨k₂, v₂⟩ := p
      by_cases h₂ : k₂ = k₁
      · subst h₂; simp [dictFind, dictInsert, h]
      · simp [dictFind, dictInsert, h₂, ih]

/-- Every pair of an assigned dict is the new pair or one of the old
pairs. -/
theorem mem_dictInsert (k : κ) (v : α) (d : List (κ × α)) (p : κ × α)
    (hp : p ∈ dictInsert k v d) : p = (k, v) ∨ p ∈ d := by
  induction d with
  | nil => simpa [dictInsert] using hp
  | cons q rest ih =>
      obtain ⟨k₁, v₁⟩ := q
      by_cases h : k₁ = k
      · subst h
        simp [dictInsert] at hp
        rcases hp with hp | hp
        · left; rw [hp]
        · right; simp [hp]
      · simp [dictInsert, h] at hp
        rcases hp with hp | hp
        · right; simp [hp]
        · rcases ih hp with hp | hp
          · left; exact hp
          · right; simp [hp]

/-- A key held by no pair of a dict is not found. -/
theorem dictFind_eq_none (k : κ) (d : List (κ × α))
    (h : ∀ p ∈ d, p.1 ≠ k) : dictFind k d = none := by
  induction d with
  | nil => simp [dictFind]
  | cons p rest ih =>
      obtain ⟨k₁, v₁⟩ := p
      have h₁ : k₁ ≠ k := h (k₁, v₁) (by simp)
      simp [dictFind, h₁]
      exact ih (fun q hq => h q (by simp [hq]))

end Helpers

section ExceptHelpers

variable {ε α β : Type}

/-- Bind on a success value reduces. -/
theorem ok_bind (a : α) (f : α → Except ε β) : (Except.ok a >>= f) = f a := rfl

/-- Bind on an error value reduces. -/
theorem error_bind (e : ε) (f : α → Except ε β) :
    ((Except.error e : Except ε α) >>= f) = Except.error e := rfl

/-- A successful bind factors through a successful first component. -/
theorem except_bind_ok {x : Except ε α} {f : α → Except ε β} {b : β}
    (h : (x >>= f) = Except.ok b) : ∃ a, x = Except.ok a ∧ f a = Except.ok b := by
  cases x with
  | error e => rw [error_bind] at h; exact absurd h (by simp)
  | ok a => exact ⟨a, rfl, by rwa [ok_bind] at h⟩

/-- Fold of a list prefix followed by a remainder, in the Except
monad. -/
theorem foldlM_append_except (f : α → β → Except ε α) (l₁ l₂ : List β) (init : α) :
    (l₁ ++ l₂).foldlM f init = (l₁.foldlM f init >>= fun a => l₂.foldlM f a) := by
  induction l₁ generalizing init with
  | nil => simp [List.foldlM]
  | cons b t ih =>
      show (f init b >>= fun a => (t ++ l₂).foldlM f a)
        = ((f init b >>= fun a => t.foldlM f a) >>= fun a => l₂.foldlM f a)
      cases h : f init b with
      | error e => simp only [error_bind]
      | ok a => simp only [ok_bind]; exact ih a

end ExceptHelpers

/-- Inversion of a successful required-key access. -/
theorem getKey_ok {α : Type} {o : Option α} {n : String} {a : α}
    (h : getKey o n = Except.ok a) : o = some a := by
  cases o with
  | none => simp [getKey] at h
  | some v => simp [getKey] at h; rw [h]

/-- Inversion of one word-resolution step: either the identifier does
not resolve and the accumulator is unchanged, or it resolves to a
record and the Word node built from that record (carrying its type
tag) is assigned under the identifier. -/
theorem add_word_ok {result : TextractResult} {acc acc' : List (String × WordData)}
    {i : String} (h : add_word result acc i = Except.ok acc') :
    (get_block_by_id result i = none ∧ acc' = acc) ∨
    (∃ r wd, get_block_by_id result i = some r ∧ wd.blockType = r.blockType ∧
      acc' = dictInsert i wd acc) := by
  cases hr : get_block_by_id result i with
  | none =>
      left
      refine ⟨rfl, ?_⟩
      simp [add_word, hr] at h
      exact h.symm
  | some r =>
      right
      cases hc : r.confidence with
      | none => simp [add_word, hr, hc, getKey, error_bind] at h
      | some c =>
        cases ht : r.text with
        | none => simp [add_word, hr, hc, ht, getKey, error_bind, ok_bind] at h
        | some t =>
          cases hg : r.geometry with
          | none => simp [add_word, hr, hc, ht, hg, getKey, error_bind, ok_bind] at h
          | some g =>
              simp [add_word, hr, hc, ht, hg, getKey, ok_bind] at h
              refine ⟨r, _, rfl, ?_, h.symm⟩
              rfl

/-- Every pair produced by the word-resolution fold comes from the
accumulator, or carries an identifier listed in the folded list that
resolves in the Block Index, its Word node carrying the type tag of
the resolved record. -/
theorem words_fold_mem (result : TextractResult) (ids : List String) :
    ∀ acc ws : List (String × WordData),
      ids.foldlM (add_word result) acc = Except.ok ws →
      ∀ p, p ∈ ws →
        p ∈ acc ∨ (p.1 ∈ ids ∧ ∃ r, get_block_by_id result p.1 = some r ∧
          p.2.blockType = r.blockType) := by
  induction ids with
  | nil =>
      intro acc ws h p hp
      have h' : Except.ok acc = Except.ok ws := h
      cases h'
      exact Or.inl hp
  | cons i t ih =>
      intro acc ws h p hp
      have h' : (add_word result acc i >>= fun a => t.foldlM (add_word result) a)
          = Except.ok ws := h
      obtain ⟨acc₁, h₁, h₂⟩ := except_bind_ok h'
      rcases ih acc₁ ws h₂ p hp with hin | ⟨hmem, hres⟩
      · rcases add_word_ok h₁ with ⟨_, rfl⟩ | ⟨r, wd, hr, hwd, rfl⟩
        · exact Or.inl hin
        · rcases mem_dictInsert i wd acc p hin with rfl | hin
          · exact Or.inr ⟨by simp, r, hr, hwd⟩
          · exact Or.inl hin
      · exact Or.inr ⟨by simp [hmem], hres⟩

/-- Inversion of parse_block: a produced Line node carries the
Confidence, Text and Geometry of the block, and its word mapping is
the word-resolution fold, starting from the empty mapping, over the
identifiers of the first relationship group. -/
theorem parse_block_ok {block : Block} {result : TextractResult} {ld : LineData}
    (h : parse_block block result = Except.ok ld) :
    ∃ c t g ids ws, block.confidence = some c ∧ block.text = some t ∧
      block.geometry = some g ∧ first_group_ids block = Except.ok ids ∧
      ids.foldlM (add_word result) [] = Except.ok ws ∧
      ld = { blockType := block.blockType, confidence := c, text := t,
             boundingBox := g.boundingBox,
             polygon := g.polygon.map (fun point => Point.mk point.x point.y),
             words := ws } := by
  unfold parse_block at h
  obtain ⟨c, hc, h⟩ := except_bind_ok h
  obtain ⟨t, ht, h⟩ := except_bind_ok h
  obtain ⟨g, hg, h⟩ := except_bind_ok h
  obtain ⟨ids, hids, h⟩ := except_bind_ok h
  obtain ⟨ws, hws, h⟩ := except_bind_ok h
  have h' : ld = _ := (Except.ok.inj h).symm
  exact ⟨c, t, g, ids, ws, getKey_ok hc, getKey_ok ht, getKey_ok hg, hids, hws, h'⟩

/-- Claim C7: a LINE record with no relationship group yields a Line
node with an empty word mapping and no error (given the Confidence,
Text and Geometry fields every LINE record carries). -/
theorem c7_no_relationship_group (block : Block) (result : TextractResult)
    (c : ℚ) (t : String) (g : Geometry)
    (hrel : block.relationships = none)
    (hc : block.confidence = some c) (ht : block.text = some t)
    (hg : block.geometry = some g) :
    parse_block block result = Except.ok
      { blockType := block.blockType
        confidence := c
        text := t
        boundingBox := g.boundingBox
        polygon := g.polygon.map (fun point => Point.mk point.x point.y)
        words := [] } := by
  unfold parse_block first_group_ids
  simp [hc, ht, hg, hrel, getKey, ok_bind, List.foldlM]

/-- Witness for C7 at a concrete LINE block with no Relationships
key. -/
theorem c7_witness :
    parse_block exLine ⟨[exLine]⟩ = Except.ok exLineParsed :=
  c7_no_relationship_group exLine ⟨[exLine]⟩ 98 "Hello"
    ⟨⟨1/10, 2/10, 3/10, 5/100⟩, []⟩ rfl rfl rfl rfl

/-- Claim C8: with Relationships present but an empty list, parse_block
raises IndexError at the first-group subscript; the tolerant
empty-word-mapping outcome is reached only when the Relationships key
is absent. -/
theorem c8_empty_vs_absent_relationships (block : Block) (result : TextractResult)
    (c : ℚ) (t : String) (g : Geometry)
    (hc : block.confidence = some c) (ht : block.text = some t)
    (hg : block.geometry = some g) :
    (block.relationships = some [] →
      parse_block block result = Except.error PyError.indexError) ∧
    (block.relationships = none →
      ∃ ld, parse_block block result = Except.ok ld ∧ ld.words = []) := by
  constructor
  · intro hrel
    unfold parse_block first_group_ids
    simp [hc, ht, hg, hrel, getKey, ok_bind, error_bind]
  · intro hrel
    refine ⟨{ blockType := block.blockType
              confidence := c
              text := t
              boundingBox := g.boundingBox
              polygon := g.polygon.map (fun point => Point.mk point.x point.y)
              words := [] }, ?_, rfl⟩
    unfold parse_block first_group_ids
    simp [hc, ht, hg, hrel, getKey, ok_bind, List.foldlM]

/-- Witness for C8 at a concrete LINE block whose Relationships list
is present and empty. -/
theorem c8_witness :
    (exLineEmptyRel.relationships = some [] →
      parse_block exLineEmptyRel ⟨[exLineEmptyRel]⟩ = Except.error PyError.indexError) ∧
    (exLineEmptyRel.relationships = none →
      ∃ ld, parse_block exLineEmptyRel ⟨[exLineEmptyRel]⟩ = Except.ok ld ∧ ld.words = []) :=
  c8_empty_vs_absent_relationships exLineEmptyRel ⟨[exLineEmptyRel]⟩ 98 "Hello"
    ⟨⟨1/10, 2/10, 3/10, 5/100⟩, []⟩ rfl rfl rfl

/-- Claim C9: a PAGE record and a LINE record with no Page key are both
assigned to page 1 in the Normalized Tree. -/
theorem c9_default_page (pb lb : Block) (ld : LineData)
    (hpt : pb.blockType = "PAGE") (hpp : pb.page = none)
    (hlt : lb.blockType = "LINE") (hlp : lb.page = none)
    (hld : parse_block lb ⟨[lb]⟩ = Except.ok ld) :
    parse_results ⟨[pb]⟩ = Except.ok [(1, [])] ∧
    parse_results ⟨[lb]⟩ = Except.ok [(1, [(lb.id, ld)])] := by
  constructor
  · unfold parse_results parse_step
    simp [hpt, pageOf, hpp, List.foldlM, dictInsert]
  · unfold parse_results parse_step
    have hne : (lb.blockType == "PAGE") = false := by simp [hlt]
    simp [hne, hlt, pageOf, hlp, List.foldlM, hld, ok_bind, dictInsert, dictFind]

/-- Witness for C9 at concrete PAGE and LINE blocks with no Page
key. -/
theorem c9_witness :
    parse_results ⟨[exPageNoNumber]⟩ = Except.ok [(1, [])] ∧
    parse_results ⟨[exLineNoNumber]⟩ = Except.ok [(1, [(exLineNoNumber.id, exLineParsed)])] :=
  c9_default_page exPageNoNumber exLineNoNumber exLineParsed rfl rfl rfl rfl rfl

/-- Claim C10: only the identifiers of the first relationship group are
resolved into Word nodes; replacing the later groups changes nothing,
and every stored word identifier is listed in the first group. -/
theorem c10_first_group_only (block : Block) (result : TextractResult)
    (g : RelGroup) (gs : List RelGroup)
    (hrel : block.relationships = some (g :: gs)) :
    parse_block block result
      = parse_block { block with relationships := some [g] } result ∧
    (∀ ld, parse_block block result = Except.ok ld →
      ∀ p ∈ ld.words, p.1 ∈ g.ids.getD []) := by
  constructor
  · unfold parse_block first_group_ids
    simp [hrel]
  · intro ld hld p hp
    obtain ⟨c, t, geo, ids, ws, _, _, _, hids, hws, hldeq⟩ := parse_block_ok hld
    have hids' : ids = g.ids.getD [] := by
      unfold first_group_ids at hids
      rw [hrel] at hids
      exact (Except.ok.inj hids).symm
    have hwords : ld.words = ws := by rw [hldeq]
    rw [hwords] at hp
    rcases words_fold_mem result ids [] ws hws p hp with hin | ⟨hmem, _⟩
    · simp at hin
    · rwa [hids'] at hmem

/-- Witness for C10 at a concrete LINE block with two relationship
groups; the second group references W2, which is present in the Block
Index, yet the word mapping holds only W1. -/
theorem c10_witness :
    (parse_block exLineTwoGroups exTwoGroupsResult
      = parse_block { exLineTwoGroups with
          relationships := some [RelGroup.mk (some ["W1"])] } exTwoGroupsResult ∧
    (∀ ld, parse_block exLineTwoGroups exTwoGroupsResult = Except.ok ld →
      ∀ p ∈ ld.words, p.1 ∈ (RelGroup.mk (some ["W1"])).ids.getD [])) ∧
    (parse_block exLineTwoGroups exTwoGroupsResult).map
        (fun ld => ld.words.map Prod.fst) = Except.ok ["W1"] ∧
    (get_block_by_id exTwoGroupsResult "W2").isSome = true := by
  refine ⟨c10_first_group_only exLineTwoGroups exTwoGroupsResult
    (RelGroup.mk (some ["W1"])) [RelGroup.mk (some ["W2"])] rfl, ?_, ?_⟩
  · rfl
  · rfl

/-- Claim C2 fails on the code: parse_block performs no type check on a
resolved child record, so a LINE identifier listed in the relationship
group of another LINE is materialized as a Word node; here the Word
node stored under L2 carries the type tag LINE. -/
theorem c2_counterexample :
    (parse_block exLineRefLine exRefResult).map
        (fun ld => ld.words.map (fun p => (p.1, p.2.blockType)))
      = Except.ok [("L2", "LINE")] ∧
    (get_block_by_id exRefResult "L2").map Block.blockType = some "LINE" := by
  constructor
  · rfl
  · rfl

/-- Claim C2 amended: every Word node identifier in a parsed Line node
resolves via the Block Index to an existing Record, and the Word node
carries the type tag of that record verbatim; no check restricts the
record to type WORD. -/
theorem c2_amended (block : Block) (result : TextractResult) (ld : LineData)
    (h : parse_block block result = Except.ok ld) :
    ∀ p ∈ ld.words, ∃ r, get_block_by_id result p.1 = some r ∧
      p.2.blockType = r.blockType := by
  intro p hp
  obtain ⟨c, t, g, ids, ws, _, _, _, _, hws, hldeq⟩ := parse_block_ok h
  have hwords : ld.words = ws := by rw [hldeq]
  rw [hwords] at hp
  rcases words_fold_mem result ids [] ws hws p hp with hin | ⟨_, hres⟩
  · simp at hin
  · exact hres

/-- Witness for the amended C2 at the concrete pair stored under L2. -/
theorem c2_amended_witness :
    ∃ r, get_block_by_id exRefResult ("L2", exRefWord).1 = some r ∧
      ("L2", exRefWord).2.blockType = r.blockType :=
  c2_amended exLineRefLine exRefResult exRefParsed (by rfl)
    ("L2", exRefWord) (by simp [exRefParsed])

/-- Claim C6: a referenced identifier that matches no record makes the
lookup return an absence signal (not an error), parse_block behaves as
if that identifier were not listed (so every other resolvable
reference is unaffected), and the identifier is absent from the word
mapping of the produced Line node. -/
theorem c6_dangling_reference (result : TextractResult) (wid : String)
    (habs : ∀ r ∈ result.blocks, r.id ≠ wid)
    (block : Block) (g : RelGroup) (gs : List RelGroup) (ids₁ ids₂ : List String)
    (hrel : block.relationships = some (g :: gs))
    (hids : g.ids = some (ids₁ ++ wid :: ids₂)) :
    get_block_by_id result wid = none ∧
    parse_block block result =
      parse_block { block with
        relationships := some (RelGroup.mk (some (ids₁ ++ ids₂)) :: gs) } result ∧
    (∀ ld, parse_block block result = Except.ok ld →
      dictFind wid ld.words = none) := by
  have hnone : get_block_by_id result wid = none := by
    unfold get_block_by_id
    rw [List.find?_eq_none]
    intro b hb
    simp [habs b hb]
  have hstep : ∀ a, (wid :: ids₂).foldlM (add_word result) a
      = ids₂.foldlM (add_word result) a := by
    intro a
    have ha : add_word result a wid = Except.ok a := by simp [add_word, hnone]
    show (add_word result a wid >>= fun b => ids₂.foldlM (add_word result) b) = _
    rw [ha, ok_bind]
  have hfold : ∀ acc, (ids₁ ++ wid :: ids₂).foldlM (add_word result) acc
      = (ids₁ ++ ids₂).foldlM (add_word result) acc := by
    intro acc
    rw [foldlM_append_except, foldlM_append_except]
    cases h₁ : ids₁.foldlM (add_word result) acc with
    | error e => simp only [error_bind]
    | ok a => simp only [ok_bind]; exact hstep a
  refine ⟨hnone, ?_, ?_⟩
  · unfold parse_block
    have h₁ : first_group_ids block = Except.ok (ids₁ ++ wid :: ids₂) := by
      unfold first_group_ids
      rw [hrel]
      show Except.ok (g.ids.getD []) = Except.ok (ids₁ ++ wid :: ids₂)
      rw [hids]
      rfl
    have h₂ : first_group_ids { block with
        relationships := some (RelGroup.mk (some (ids₁ ++ ids₂)) :: gs) }
        = Except.ok (ids₁ ++ ids₂) := by
      unfold first_group_ids
      rfl
    simp only [h₁, h₂, ok_bind, hfold]
  · intro ld hld
    obtain ⟨c, t, geo, ids, ws, _, _, _, hidseq, hws, hldeq⟩ := parse_block_ok hld
    have hwords : ld.words = ws := by rw [hldeq]
    rw [hwords]
    apply dictFind_eq_none
    intro p hp
    rcases words_fold_mem result ids [] ws hws p hp with hin | ⟨_, r, hr, _⟩
    · simp at hin
    · intro hpwid
      rw [hpwid, hnone] at hr
      exact absurd hr (by simp)

/-- Witness for C6 at a concrete result where the LINE references W1,
a dangling W9 and W2; the dangling reference is skipped and W1 and W2
are unaffected. -/
theorem c6_witness :
    (∀ r ∈ exDanglingResult.blocks, r.id ≠ "W9") ∧
    (get_block_by_id exDanglingResult "W9" = none ∧
     parse_block exLineDangling exDanglingResult =
       parse_block { exLineDangling with
         relationships := some (RelGroup.mk (some (["W1"] ++ ["W2"])) :: []) }
         exDanglingResult ∧
     (∀ ld, parse_block exLineDangling exDanglingResult = Except.ok ld →
       dictFind "W9" ld.words = none)) ∧
    (parse_block exLineDangling exDanglingResult).map
        (fun ld => ld.words.map Prod.fst) = Except.ok ["W1", "W2"] := by
  refine ⟨?_, c6_dangling_reference exDanglingResult "W9" ?_ exLineDangling
    (RelGroup.mk (some ["W1", "W9", "W2"])) [] ["W1"] ["W2"] rfl rfl, ?_⟩
  · decide
  · decide
  · rfl

/-- The texts of the LINE blocks of a list, under the hypothesis that
no LINE block lacks its Text key: line_texts succeeds and returns
exactly those texts in list order. -/
theorem line_texts_ok (l : List Block)
    (h : ∀ b ∈ l, b.blockType = "LINE" → b.text ≠ none) :
    line_texts l = Except.ok
      ((l.filter (fun b => b.blockType == "LINE")).filterMap Block.text) := by
  induction l with
  | nil => rfl
  | cons b t ih =>
      have iht := ih (fun b₂ hb₂ => h b₂ (by simp [hb₂]))
      by_cases hbt : b.blockType = "LINE"
      · have hbeq : (b.blockType == "LINE") = true := by simp [hbt]
        obtain ⟨tb, htb⟩ := Option.ne_none_iff_exists'.mp (h b (by simp) hbt)
        simp [line_texts, hbeq, htb, getKey, ok_bind, iht, List.filter_cons,
          List.filterMap_cons]
      · have hbeq : (b.blockType == "LINE") = false := by simp [hbt]
        simp [line_texts, hbeq, iht, List.filter_cons]

/-- Reassigning every Page field leaves line_texts unchanged: the
transcript never consults page numbers. -/
theorem line_texts_map_page (f : Block → Option ℤ) (l : List Block) :
    line_texts (l.map (fun b => { b with page := f b })) = line_texts l := by
  induction l with
  | nil => rfl
  | cons b t ih =>
      by_cases hbt : b.blockType = "LINE" <;>
        simp [line_texts, hbt, ih]

/-- Claim C5: the transcript is exactly the Text fields of the LINE
records of the raw response, in list order, joined by a single newline
between consecutive lines with no trailing newline, and it is
unchanged under any reassignment of Page fields (page grouping and the
Normalized Tree are never consulted). -/
theorem c5_transcript (result : TextractResult) (f : Block → Option ℤ)
    (h : ∀ b ∈ result.blocks, b.blockType = "LINE" → b.text ≠ none) :
    get_transcript result = Except.ok (String.intercalate "\n"
      ((result.blocks.filter (fun b => b.blockType == "LINE")).filterMap Block.text)) ∧
    get_transcript ⟨result.blocks.map (fun b => { b with page := f b })⟩
      = get_transcript result := by
  constructor
  · unfold get_transcript
    rw [line_texts_ok result.blocks h]
    rfl
  · unfold get_transcript
    rw [line_texts_map_page]

/-- Witness for C5 at the concrete Hello and World response: the
transcript is the string Hello, newline, World. -/
theorem c5_witness :
    (∀ b ∈ exTranscriptResult.blocks, b.blockType = "LINE" → b.text ≠ none) ∧
    (get_transcript exTranscriptResult = Except.ok (String.intercalate "\n"
        ((exTranscriptResult.blocks.filter
          (fun b => b.blockType == "LINE")).filterMap Block.text)) ∧
     get_transcript ⟨exTranscriptResult.blocks.map (fun b => { b with page := some 7 })⟩
        = get_transcript exTranscriptResult) ∧
    get_transcript exTranscriptResult = Except.ok "Hello\nWorld" := by
  refine ⟨?_, c5_transcript exTranscriptResult (fun _ => some 7) ?_, ?_⟩
  · decide
  · decide
  · rfl

/-- Claim C1 fails on the code: a PAGE record assigns a fresh empty
mapping to its page number unconditionally, so the Line node stored
under page 1 by the earlier LINE record is discarded, not preserved. -/
theorem c1_counterexample :
    (parse_results ⟨[exLine]⟩).map (fun rd => rd.map (fun p => (p.1, p.2.map Prod.fst)))
      = Except.ok [(1, ["L1"])] ∧
    (parse_results ⟨[exLine, exPage]⟩).map (fun rd => rd.map (fun p => (p.1, p.2.map Prod.fst)))
      = Except.ok [(1, [])] := by
  constructor
  · rfl
  · rfl

/-- One parse_results step on a block that is not a LINE of page p
keeps a present-and-empty entry for p present and empty. -/
theorem parse_step_preserves_empty (result : TextractResult) (p : ℤ) (b : Block)
    (hb : b.blockType = "LINE" → pageOf b ≠ p)
    (rd rd' : ResultData) (hfind : dictFind p rd = some [])
    (hstep : parse_step result rd b = Except.ok rd') :
    dictFind p rd' = some [] := by
  unfold parse_step at hstep
  by_cases hpage : b.blockType = "PAGE"
  · rw [if_pos (by simp [hpage])] at hstep
    rw [← Except.ok.inj hstep]
    by_cases hpp : pageOf b = p
    · rw [hpp]
      exact dictFind_dictInsert_self p [] rd
    · rw [dictFind_dictInsert_ne (pageOf b) p [] rd hpp]
      exact hfind
  · rw [if_neg (by simp [hpage])] at hstep
    by_cases hline : b.blockType = "LINE"
    · rw [if_pos (by simp [hline])] at hstep
      obtain ⟨ld, hld, h₂⟩ := except_bind_ok hstep
      rw [← Except.ok.inj h₂]
      rw [dictFind_dictInsert_ne (pageOf b) p _ rd (hb hline)]
      exact hfind
    · rw [if_neg (by simp [hline])] at hstep
      rw [← Except.ok.inj hstep]
      exact hfind

/-- Folding parse_results steps over blocks none of which is a LINE of
page p keeps a present-and-empty entry for p present and empty. -/
theorem parse_fold_preserves_empty (result : TextractResult) (p : ℤ) (bs : List Block)
    (h : ∀ b ∈ bs, b.blockType = "LINE" → pageOf b ≠ p) :
    ∀ rd rd', dictFind p rd = some [] →
      bs.foldlM (parse_step result) rd = Except.ok rd' →
      dictFind p rd' = some [] := by
  induction bs with
  | nil =>
      intro rd rd' hfind hfold
      have h' : Except.ok rd = Except.ok rd' := hfold
      rw [← Except.ok.inj h']
      exact hfind
  | cons b t ih =>
      intro rd rd' hfind hfold
      have h' : (parse_step result rd b >>= fun a => t.foldlM (parse_step result) a)
          = Except.ok rd' := hfold
      obtain ⟨rd₁, h₁, h₂⟩ := except_bind_ok h'
      exact ih (fun x hx => h x (by simp [hx])) rd₁ rd'
        (parse_step_preserves_empty result p b (h b (by simp)) rd rd₁ hfind h₁) h₂

/-- Claim C1 amended: on a PAGE record with page number p the
Normalizer unconditionally assigns a fresh empty mapping to p, so an
entry for p is always present afterwards; if no later LINE record
belongs to p, the final tree maps p to the empty mapping.  In
particular a PAGE record with zero associated LINE records yields an
empty but present page entry, while Line nodes stored under p by LINE
records seen before that PAGE record are overwritten, not preserved. -/
theorem c1_amended (result : TextractResult) (bs₁ bs₂ : List Block)
    (pb : Block) (rd : ResultData)
    (hsplit : result.blocks = bs₁ ++ pb :: bs₂)
    (hpt : pb.blockType = "PAGE")
    (hafter : ∀ b ∈ bs₂, b.blockType = "LINE" → pageOf b ≠ pageOf pb)
    (hok : parse_results result = Except.ok rd) :
    dictFind (pageOf pb) rd = some [] := by
  unfold parse_results at hok
  rw [hsplit, foldlM_append_except] at hok
  obtain ⟨rd₁, h₁, h₂⟩ := except_bind_ok hok
  have h₂' : (parse_step result rd₁ pb >>= fun a => bs₂.foldlM (parse_step result) a)
      = Except.ok rd := h₂
  obtain ⟨rd₂, hstep, hrest⟩ := except_bind_ok h₂'
  have hrd₂ : rd₂ = dictInsert (pageOf pb) [] rd₁ := by
    unfold parse_step at hstep
    rw [if_pos (by simp [hpt])] at hstep
    exact (Except.ok.inj hstep).symm
  have hfind : dictFind (pageOf pb) rd₂ = some [] := by
    rw [hrd₂]
    exact dictFind_dictInsert_self (pageOf pb) [] rd₁
  exact parse_fold_preserves_empty result (pageOf pb) bs₂ hafter rd₂ rd hfind hrest

/-- Witness for the amended C1: a LINE on page 1 followed by the PAGE
record for page 1 leaves the page-1 entry present and empty. -/
theorem c1_amended_witness :
    ((⟨[exLine, exPage]⟩ : TextractResult).blocks = [exLine] ++ exPage :: []) ∧
    exPage.blockType = "PAGE" ∧
    parse_results ⟨[exLine, exPage]⟩ = Except.ok [(1, [])] ∧
    dictFind (pageOf exPage) [((1 : ℤ), ([] : List (String × LineData)))] = some [] := by
  refine ⟨rfl, rfl, rfl,
    c1_amended ⟨[exLine, exPage]⟩ [exLine] [] exPage [(1, [])] rfl rfl ?_ rfl⟩
  intro b hb
  simp at hb

/-- Claim C3 fails on the code: Python int() truncates toward zero
while the claim demands floor; on a bounding box with a small negative
Left fraction the emitted left and right coordinates are 0 where the
floor formula gives -1, and the rendered title shows the truncated
values. -/
theorem c3_counterexample :
    render_coords exBoxNeg 1000 1000 = (0, 0, 0, 0) ∧
    spec_floor_coords exBoxNeg 1000 1000 = (-1, 0, -1, 0) ∧
    line_title exBoxNeg 98 1000 1000 = "bbox 0 0 0 0; x_wconf 98" := by
  have e1 : pyInt (exBoxNeg.left * ((1000 : ℤ) : ℚ)) = 0 := by
    norm_num [pyInt, exBoxNeg]
  have e2 : pyInt (exBoxNeg.top * ((1000 : ℤ) : ℚ)) = 0 := by
    norm_num [pyInt, exBoxNeg]
  have e3 : pyInt (exBoxNeg.left * ((1000 : ℤ) : ℚ)
      + exBoxNeg.width * ((1000 : ℤ) : ℚ)) = 0 := by
    norm_num [pyInt, exBoxNeg]
  have e4 : pyInt (exBoxNeg.top * ((1000 : ℤ) : ℚ)
      + exBoxNeg.height * ((1000 : ℤ) : ℚ)) = 0 := by
    norm_num [pyInt, exBoxNeg]
  have e5 : pyInt ((98 : ℚ)) = 98 := by
    norm_num [pyInt]
  refine ⟨?_, ?_, ?_⟩
  · rw [render_coords, e1, e2, e3, e4]
  · rw [spec_floor_coords]
    norm_num [exBoxNeg]
  · rw [line_title, e1, e2, e3, e4, e5]
    rfl

/-- Claim C3 amended: the renderer emits truncation toward zero of the
four products (Python int), never negating or clamping the fractional
values; truncation agrees with the floor formula whenever each product
is nonnegative (in particular for fractional values in [0,1]), and the
same conversion feeds the line-level and the word-level title. -/
theorem c3_amended (bb : BoundingBox) (conf : ℚ) (pic_w pic_h : ℤ)
    (h1 : 0 ≤ bb.left * pic_w) (h2 : 0 ≤ bb.top * pic_h)
    (h3 : 0 ≤ bb.left * pic_w + bb.width * pic_w)
    (h4 : 0 ≤ bb.top * pic_h + bb.height * pic_h) :
    render_coords bb pic_w pic_h = spec_floor_coords bb pic_w pic_h ∧
    line_title bb conf pic_w pic_h
      = title_string (spec_floor_coords bb pic_w pic_h) conf ∧
    word_title bb conf pic_w pic_h
      = title_string (spec_floor_coords bb pic_w pic_h) conf := by
  have hpy : ∀ q : ℚ, 0 ≤ q → pyInt q = ⌊q⌋ := by
    intro q hq
    unfold pyInt
    rw [if_neg (not_lt.mpr hq)]
  have e1 := hpy _ h1
  have e2 := hpy _ h2
  have e3 := hpy _ h3
  have e4 := hpy _ h4
  refine ⟨?_, ?_, ?_⟩
  · rw [render_coords, e1, e2, e3, e4, spec_floor_coords]
  · rw [line_title, e1, e2, e3, e4]
    rfl
  · rw [word_title, e1, e2, e3, e4]
    rfl

/-- Witness for the amended C3 at the round-trip example box and image
size 1000 by 2000. -/
theorem c3_amended_witness :
    (0 ≤ exBox.left * ((1000 : ℤ) : ℚ) ∧ 0 ≤ exBox.top * ((2000 : ℤ) : ℚ) ∧
     0 ≤ exBox.left * ((1000 : ℤ) : ℚ) + exBox.width * ((1000 : ℤ) : ℚ) ∧
     0 ≤ exBox.top * ((2000 : ℤ) : ℚ) + exBox.height * ((2000 : ℤ) : ℚ)) ∧
    (render_coords exBox 1000 2000 = spec_floor_coords exBox 1000 2000 ∧
     line_title exBox (987/10) 1000 2000
       = title_string (spec_floor_coords exBox 1000 2000) (987/10) ∧
     word_title exBox (987/10) 1000 2000
       = title_string (spec_floor_coords exBox 1000 2000) (987/10)) := by
  refine ⟨⟨?_, ?_, ?_, ?_⟩, c3_amended exBox (987/10) 1000 2000 ?_ ?_ ?_ ?_⟩
    <;> norm_num [exBox]

/-- Claim C4: the positional title attribute is exactly the
space-separated bbox token of the four absolute coordinates, then a
semicolon and x_wconf with the confidence truncated to an integer,
applied identically at the line and the word level; on the round-trip
example at image size 1000 by 2000 the word title reads
bbox 100 400 400 500; x_wconf 99 and the line title reads
bbox 100 400 400 500; x_wconf 98. -/
theorem c4_title_format :
    (∀ (bb : BoundingBox) (conf : ℚ) (pic_w pic_h : ℤ),
      word_title bb conf pic_w pic_h = line_title bb conf pic_w pic_h) ∧
    (∀ (bb : BoundingBox) (conf : ℚ) (pic_w pic_h : ℤ),
      line_title bb conf pic_w pic_h
        = title_string (render_coords bb pic_w pic_h) conf) ∧
    word_title exBox (994/10) 1000 2000 = "bbox 100 400 400 500; x_wconf 99" ∧
    line_title exBox (987/10) 1000 2000 = "bbox 100 400 400 500; x_wconf 98" := by
  have e1 : pyInt (exBox.left * ((1000 : ℤ) : ℚ)) = 100 := by
    norm_num [pyInt, exBox]
  have e2 : pyInt (exBox.top * ((2000 : ℤ) : ℚ)) = 400 := by
    norm_num [pyInt, exBox]
  have e3 : pyInt (exBox.left * ((1000 : ℤ) : ℚ)
      + exBox.width * ((1000 : ℤ) : ℚ)) = 400 := by
    norm_num [pyInt, exBox]
  have e4 : pyInt (exBox.top * ((2000 : ℤ) : ℚ)
      + exBox.height * ((2000 : ℤ) : ℚ)) = 500 := by
    norm_num [pyInt, exBox]
  have e5 : pyInt ((994 : ℚ)/10) = 99 := by
    norm_num [pyInt]
  have e6 : pyInt ((987 : ℚ)/10) = 98 := by
    norm_num [pyInt]
  refine ⟨fun bb conf pic_w pic_h => rfl, fun bb conf pic_w pic_h => rfl, ?_, ?_⟩
  · rw [word_title, e1, e2, e3, e4, e5]
    rfl
  · rw [line_title, e1, e2, e3, e4, e6]
    rfl
